import Mathlib

set_option autoImplicit false

/-!
Verification of the template composition and materialization engine of
CLI-Dev-Pattern.py (AETHERYON Dev Pattern generator).

The embedding translates:
* the template registry `get_templates` (source lines 78-608), which builds an
  ordered mapping from relative path to static content by level-conditional
  accumulation;
* the materializer `generar_estructura` (source lines 2518-2542), which walks
  the registry output in order, creates parent directories, writes missing
  files, skips existing ones, prints one status line per file and a final
  summary line;
* the relevant slice of `main` (source lines 2621-2663): the unused
  `--forzar` flag and the creation of the destination root.

Template bodies are static string literals in the source (each `_tpl_*`
function is a single `return` of a literal, and the level 1 and 2 bodies are
inline literals).  No claim under verification depends on the bytes of those
bodies, only on which distinct body is attached to which relative path, so
bodies are embedded as distinct constructors of the opaque-payload type
`Tpl` rather than as multi-thousand-line string transcriptions.  Paths,
level conditions, insertion order and the materializer control flow are
translated literally from the source.
-/

namespace DevPattern

/-- Static template bodies of the source, one constructor per distinct
string literal: `proyecto_nivel1` is the inline level 1 body (source line
85), `backend_nivel2` and `frontend_nivel2` the inline level 2 bodies
(306, 399), each `tpl_x` constructor stands for the literal returned by the
source function `_tpl_x`, the `init_x` constructors are the inline package
docstring literals, and `empty` is the empty string used for bare
`__init__.py` files. -/
inductive Tpl where
  | proyecto_nivel1
  | backend_nivel2
  | frontend_nivel2
  | tpl_backend
  | tpl_bootstrap
  | tpl_config
  | tpl_requirements
  | tpl_env
  | tpl_gitignore
  | init_domain
  | empty
  | tpl_entidad
  | tpl_value_object
  | tpl_eventos
  | tpl_excepciones
  | init_application
  | tpl_servicio
  | tpl_dto
  | tpl_repositorio_abc
  | init_infrastructure
  | tpl_conexion
  | tpl_repositorio_sql
  | tpl_servicio_externo
  | tpl_logger
  | init_user_interface
  | tpl_layout
  | tpl_vista
  | tpl_conftest
  | tpl_test_domain
  | tpl_test_application
  | tpl_test_infra
  | tpl_migraciones
  | tpl_seed
  | tpl_readme
  | tpl_arquitectura
  | init_presentation
  | tpl_viewmodel_base
  | tpl_viewmodel
  | tpl_ui_model
  | tpl_validators
  | tpl_comando_base
  | tpl_comandos
  | tpl_test_viewmodel
  | tpl_guia_estilo
deriving DecidableEq

/-- Registry `get_templates(nivel)` (source lines 78-608).  The Python dict
with string keys, filled by first-time assignments only, is an ordered
mapping, embedded here as the association list of its insertion sequence.
The branch structure mirrors the source: `if nivel == 1`,
`elif nivel == 2`, `elif nivel >= 3` with nested `if nivel >= 4` blocks
(lines 527 and 572) and an `if nivel >= 5` block (line 592); any other
level falls through and the empty dict built at line 81 is returned. -/
def get_templates (nivel : Int) : List (String × Tpl) :=
  if nivel = 1 then
    [("proyecto.py", Tpl.proyecto_nivel1)]
  else if nivel = 2 then
    [("backend.py", Tpl.backend_nivel2),
     ("frontend.py", Tpl.frontend_nivel2)]
  else if nivel ≥ 3 then
    [("backend.py", Tpl.tpl_backend),
     ("bootstrap.py", Tpl.tpl_bootstrap)]
    ++ (if nivel ≥ 4 then
         [("config.py", Tpl.tpl_config),
          ("requirements.txt", Tpl.tpl_requirements),
          (".env.example", Tpl.tpl_env),
          (".gitignore", Tpl.tpl_gitignore)]
        else [])
    ++ [("Domain/__init__.py", Tpl.init_domain),
        ("Domain/entidades/__init__.py", Tpl.empty),
        ("Domain/entidades/entidad.py", Tpl.tpl_entidad),
        ("Domain/value_objects/__init__.py", Tpl.empty),
        ("Domain/value_objects/nombre.py", Tpl.tpl_value_object),
        ("Domain/eventos/__init__.py", Tpl.empty),
        ("Domain/eventos/eventos_entidad.py", Tpl.tpl_eventos),
        ("Domain/excepciones/__init__.py", Tpl.empty),
        ("Domain/excepciones/excepciones_dominio.py", Tpl.tpl_excepciones),
        ("Application/__init__.py", Tpl.init_application),
        ("Application/servicios/__init__.py", Tpl.empty),
        ("Application/servicios/servicio_entidad.py", Tpl.tpl_servicio),
        ("Application/dto/__init__.py", Tpl.empty),
        ("Application/dto/entidad_dto.py", Tpl.tpl_dto),
        ("Application/interfaces/__init__.py", Tpl.empty),
        ("Application/interfaces/repositorio_entidad.py", Tpl.tpl_repositorio_abc),
        ("Infrastructure/__init__.py", Tpl.init_infrastructure),
        ("Infrastructure/persistencia/__init__.py", Tpl.empty),
        ("Infrastructure/persistencia/base_datos/__init__.py", Tpl.empty),
        ("Infrastructure/persistencia/base_datos/conexion.py", Tpl.tpl_conexion),
        ("Infrastructure/persistencia/repositorios/__init__.py", Tpl.empty),
        ("Infrastructure/persistencia/repositorios/repositorio_entidad_sql.py", Tpl.tpl_repositorio_sql),
        ("Infrastructure/servicios_externos/__init__.py", Tpl.empty),
        ("Infrastructure/servicios_externos/servicio_externo.py", Tpl.tpl_servicio_externo),
        ("Infrastructure/logging/__init__.py", Tpl.empty),
        ("Infrastructure/logging/logger_config.py", Tpl.tpl_logger),
        ("User_Interface/__init__.py", Tpl.init_user_interface),
        ("User_Interface/layout.py", Tpl.tpl_layout),
        ("User_Interface/vistas/__init__.py", Tpl.empty),
        ("User_Interface/vistas/vista_principal.py", Tpl.tpl_vista)]
    ++ (if nivel ≥ 4 then
         [("Tests/__init__.py", Tpl.empty),
          ("Tests/conftest.py", Tpl.tpl_conftest),
          ("Tests/test_domain/__init__.py", Tpl.empty),
          ("Tests/test_domain/test_entidad.py", Tpl.tpl_test_domain),
          ("Tests/test_application/__init__.py", Tpl.empty),
          ("Tests/test_application/test_servicio_entidad.py", Tpl.tpl_test_application),
          ("Tests/test_infrastructure/__init__.py", Tpl.empty),
          ("Tests/test_infrastructure/test_repositorio.py", Tpl.tpl_test_infra),
          ("Scripts/__init__.py", Tpl.empty),
          ("Scripts/migraciones.py", Tpl.tpl_migraciones),
          ("Scripts/seed_data.py", Tpl.tpl_seed),
          ("Docs/README.md", Tpl.tpl_readme),
          ("Docs/arquitectura.md", Tpl.tpl_arquitectura)]
        else [])
    ++ (if nivel ≥ 5 then
         [("Presentation/__init__.py", Tpl.init_presentation),
          ("Presentation/viewmodels/__init__.py", Tpl.empty),
          ("Presentation/viewmodels/viewmodel_base.py", Tpl.tpl_viewmodel_base),
          ("Presentation/viewmodels/entidad_viewmodel.py", Tpl.tpl_viewmodel),
          ("Presentation/models/__init__.py", Tpl.empty),
          ("Presentation/models/ui_entidad.py", Tpl.tpl_ui_model),
          ("Presentation/models/validators.py", Tpl.tpl_validators),
          ("Presentation/commands/__init__.py", Tpl.empty),
          ("Presentation/commands/comando_base.py", Tpl.tpl_comando_base),
          ("Presentation/commands/comandos_entidad.py", Tpl.tpl_comandos),
          ("Tests/test_presentation/__init__.py", Tpl.empty),
          ("Tests/test_presentation/test_entidad_viewmodel.py", Tpl.tpl_test_viewmodel),
          ("Docs/guia_estilo.md", Tpl.tpl_guia_estilo)]
        else [])
  else []

/-- Content stored in a file on disk: either a template body written by the
generator, or arbitrary text put there by the user or another program. -/
inductive FileContent where
  | fromTpl (t : Tpl)
  | user (s : String)
deriving DecidableEq

/-- Filesystem state under the destination root: files as an association
list from relative path to content (first match wins), and the set of
existing directories, each directory given by its list of path segments
relative to the destination root (the root itself is the empty segment
list). -/
structure FSState where
  files : List (String × FileContent)
  dirs  : List (List String)
deriving DecidableEq

/-- The empty filesystem: no files, and not even the destination root
directory exists. -/
def emptyFS : FSState := ⟨[], []⟩

/-- First-match lookup in an association list of files. -/
def lookupFiles : List (String × FileContent) → String → Option FileContent
  | [], _ => none
  | (q, c) :: rest, p => if q = p then some c else lookupFiles rest p

/-- Content of the file at relative path `p`, if present. -/
def FSState.lookup (fs : FSState) (p : String) : Option FileContent :=
  lookupFiles fs.files p

/-- Embeds `archivo.exists()` at source line 2530. -/
def FSState.existsFile (fs : FSState) (p : String) : Bool :=
  (fs.lookup p).isSome

/-- Embeds `archivo.write_text(contenido)` at source line 2534: record the
template body as the content of `p`.  The materializer only calls this when
`p` is absent, so appending preserves first-match lookup semantics. -/
def FSState.write (fs : FSState) (p : String) (t : Tpl) : FSState :=
  { fs with files := fs.files ++ [(p, FileContent.fromTpl t)] }

/-- Splitting a character list on the forward slash, structurally. -/
def segsOfAux : List Char → List (List Char)
  | [] => [[]]
  | c :: rest =>
      if c = ('/') then [] :: segsOfAux rest
      else
        match segsOfAux rest with
        | [] => [[c]]
        | s :: tail => (c :: s) :: tail

/-- Path segments of a relative path, split on the forward slash. -/
def segsOf (p : String) : List String :=
  (segsOfAux p.data).map (fun cs => String.mk cs)

/-- All prefixes of a segment list, shortest first, beginning with the
empty prefix (the destination root itself). -/
def prefixesOf : List String → List (List String)
  | [] => [[]]
  | s :: rest => [] :: (prefixesOf rest).map (fun d => s :: d)

/-- The ancestor directories of the file at relative path `p`: the
destination root, and every directory on the way down to the parent of
`p`, parent included. -/
def ancestorsOf (p : String) : List (List String) :=
  prefixesOf (segsOf p).dropLast

/-- Create one directory if absent; no error (and no change) when it
already exists, mirroring `exist_ok=True`. -/
def insertDir (ds : List (List String)) (d : List String) : List (List String) :=
  if d ∈ ds then ds else ds ++ [d]

/-- Embeds `archivo.parent.mkdir(parents=True, exist_ok=True)` at source
line 2528: create the parent directory of `p` and every missing ancestor,
the destination root included, without error on the ones that exist. -/
def mkdirParents (fs : FSState) (p : String) : FSState :=
  { fs with dirs := (ancestorsOf p).foldl insertDir fs.dirs }

/-- One line of user-visible per-run output of the materializer: the
per-file status lines of source lines 2532 and 2536, and the final
aggregate count of lines 2539-2542 (the source prints the skipped part of
the summary only when it is nonzero; both counts are carried here as one
summary event). -/
inductive Line where
  | created (p : String)
  | skipped (p : String)
  | summary (creados omitidos : Nat)
deriving DecidableEq

/-- Result of a materialization run that processed every entry: final
filesystem, the two counters of source lines 2521-2522, and the emitted
output lines in order. -/
structure MatResult where
  fs : FSState
  creados : Nat
  omitidos : Nat
  output : List Line
deriving DecidableEq

/-- Result of a materialization run aborted by a filesystem error raised
by `write_text`: the state, counters and output at the moment the
exception propagates, and the relative path whose write failed. -/
structure MatFailure where
  fs : FSState
  creados : Nat
  omitidos : Nat
  output : List Line
  failedAt : String
deriving DecidableEq

/-- The loop of `generar_estructura` (source lines 2524-2542), with an
oracle `fail` telling which paths the OS refuses to write (permission
denied, disk full, ...).  Per entry in registry order: make the parent
directories, then either skip an existing file, or write and count, or
abort the whole run with the propagating exception.  The summary line is
emitted only after the loop, so only on runs that raised no exception. -/
def materializar (fail : String → Bool) :
    List (String × Tpl) → FSState → Nat → Nat → List Line →
    Except MatFailure MatResult
  | [], fs, creados, omitidos, out =>
      Except.ok ⟨fs, creados, omitidos, out ++ [Line.summary creados omitidos]⟩
  | (p, t) :: rest, fs, creados, omitidos, out =>
      let fs1 := mkdirParents fs p
      if fs1.existsFile p then
        materializar fail rest fs1 creados (omitidos + 1) (out ++ [Line.skipped p])
      else if fail p then
        Except.error ⟨fs1, creados, omitidos, out, p⟩
      else
        materializar fail rest (fs1.write p t) (creados + 1) omitidos (out ++ [Line.created p])

/-- Embeds `generar_estructura(nivel, ruta)` (source lines 2518-2542):
resolve the registry for the level and run the materialization loop with
zeroed counters and no output yet. -/
def generar_estructura (fail : String → Bool) (nivel : Int) (fs : FSState) :
    Except MatFailure MatResult :=
  materializar fail (get_templates nivel) fs 0 0 []

/-- Oracle for a run in which the OS refuses no write. -/
def noFail : String → Bool := fun _ => false

/-- A registry invocation as seen from a stateful world: the source
function reads no state and touches no filesystem, so the invocation
returns the pure lookup result and leaves the world untouched. -/
def resolve_templates (fs : FSState) (nivel : Int) : List (String × Tpl) × FSState :=
  (get_templates nivel, fs)

set_option linter.unusedVariables false in
/-- The materialization step of `main` (source lines 2636-2663): `main`
defines `--forzar` (line 2636) and parses it into `args.forzar`, but never
reads it afterwards; it then creates the destination root
(`ruta.mkdir(parents=True, exist_ok=True)`, line 2662) and calls
`generar_estructura` (line 2663). -/
def main_con_args (fail : String → Bool) (nivel : Int) (forzar : Bool) (fs : FSState) :
    Except MatFailure MatResult :=
  generar_estructura fail nivel { fs with dirs := insertDir fs.dirs [] }

/-- Relative paths of the entries reported as created in an output trace. -/
def createdPaths (out : List Line) : List String :=
  out.filterMap (fun l =>
    match l with
    | Line.created p => some p
    | _ => none)

/-- Whether an output line is the final aggregate count line. -/
def isSummaryLine : Line → Bool
  | Line.summary _ _ => true
  | _ => false

/-- Oracle for a run in which the OS refuses to write `proyecto.py`. -/
def failProyecto : String → Bool := fun p => p == ("proyecto.py")

/-- Outcome reporting of one materialization run: on an aborted run the
surfaced error names a genuinely failing path, the failing file was not
written, the only files written are exactly the ones reported as created,
and no aggregate count line was emitted; on a completed run the aggregate
count line carrying the final counters was emitted. -/
def FalloReportado (fail : String → Bool) (nivel : Int) (fs0 : FSState) : Prop :=
  match generar_estructura fail nivel fs0 with
  | Except.error f =>
      fail f.failedAt = true ∧
      f.fs.lookup f.failedAt = none ∧
      f.fs.files.map Prod.fst = fs0.files.map Prod.fst ++ createdPaths f.output ∧
      f.output.filter isSummaryLine = []
  | Except.ok r => Line.summary r.creados r.omitidos ∈ r.output

/-- Frame property of one materialization run for a file that already
holds content `c0` at path `p`: whatever the outcome, the content at `p`
is unchanged, and a completed run reported `p` as skipped. -/
def ArchivoPreservado (fail : String → Bool) (nivel : Int) (fs0 : FSState)
    (p : String) (c0 : FileContent) : Prop :=
  match generar_estructura fail nivel fs0 with
  | Except.ok r => r.fs.lookup p = some c0 ∧ Line.skipped p ∈ r.output
  | Except.error f => f.fs.lookup p = some c0

/-- Directory creation of one materialization run: after a completed run
every ancestor directory of every template entry of the level exists, and
even on an aborted run the ancestors of the failing file had been created
before its write was attempted. -/
def AncestrosCreados (fail : String → Bool) (nivel : Int) (fs0 : FSState) : Prop :=
  match generar_estructura fail nivel fs0 with
  | Except.ok r => ∀ pc ∈ get_templates nivel, ∀ d ∈ ancestorsOf pc.1, d ∈ r.fs.dirs
  | Except.error f => ∀ d ∈ ancestorsOf f.failedAt, d ∈ f.fs.dirs

/-- Frame property of a full `main` run with `--forzar` set: a file that
already holds content `c0` at path `p` still holds it afterwards. -/
def ExistentePreservado (fail : String → Bool) (nivel : Int) (fs0 : FSState)
    (p : String) (c0 : FileContent) : Prop :=
  match main_con_args fail nivel true fs0 with
  | Except.ok r => r.fs.lookup p = some c0
  | Except.error f => f.fs.lookup p = some c0

/-- A destination holding a user-edited `proyecto.py`. -/
def fsEditado : FSState :=
  ⟨[("proyecto.py", FileContent.user ("edited by the user"))], [[]]⟩

/-- Result of the first level 1 run into the empty destination: one file
created, destination root created, no skip, summary 1 created 0 skipped. -/
def c4r1 : MatResult :=
  ⟨⟨[("proyecto.py", FileContent.fromTpl Tpl.proyecto_nivel1)], [[]]⟩, 1, 0,
   [Line.created ("proyecto.py"), Line.summary 1 0]⟩

/-- Result of the second level 1 run over the tree left by the first: no
file created, one skip, contents unchanged, summary 0 created 1 skipped. -/
def c4r2 : MatResult :=
  ⟨⟨[("proyecto.py", FileContent.fromTpl Tpl.proyecto_nivel1)], [[]]⟩, 0, 1,
   [Line.skipped ("proyecto.py"), Line.summary 0 1]⟩

/-- Character-list test that the first list is an initial run of the
second, used to classify relative paths by their leading directory. -/
def hasPathPrefixChars : List Char → List Char → Bool
  | [], _ => true
  | _ :: _, [] => false
  | a :: as, b :: bs => (a == b) && hasPathPrefixChars as bs

/-- Whether the relative path `p` begins with the directory run `pre`. -/
def hasPathPrefixStr (pre p : String) : Bool :=
  hasPathPrefixChars pre.data p.data

/-- The exact failure produced when the very first write of a level 1 run
into the empty destination is refused: root directory created, nothing
written, counters at zero, and not a single output line emitted. -/
def c2fallo : MatFailure := ⟨⟨[], [[]]⟩, 0, 0, [], ("proyecto.py")⟩

/-- First-match lookup distributes over list append. -/
theorem lookupFiles_append (l₁ l₂ : List (String × FileContent)) (p : String) :
    lookupFiles (l₁ ++ l₂) p =
      match lookupFiles l₁ p with
      | some c => some c
      | none => lookupFiles l₂ p := by
  induction l₁ with
  | nil => rfl
  | cons hd tl ih =>
      obtain ⟨q, c⟩ := hd
      by_cases h : q = p
      · simp [lookupFiles, h]
      · simp [lookupFiles, h, ih]

/-- Lookup after a write: an existing binding is untouched, an absent path
now resolves to the written body exactly when it is the written path. -/
theorem lookup_write (fs : FSState) (q : String) (t : Tpl) (p : String) :
    (fs.write q t).lookup p =
      match fs.lookup p with
      | some c => some c
      | none => if q = p then some (FileContent.fromTpl t) else none := by
  unfold FSState.write FSState.lookup
  rw [lookupFiles_append]
  cases lookupFiles fs.files p <;> simp [lookupFiles]

/-- Creating directories does not change the file table. -/
theorem mkdirParents_files (fs : FSState) (q : String) :
    (mkdirParents fs q).files = fs.files := rfl

/-- Creating directories does not change any lookup. -/
theorem mkdirParents_lookup (fs : FSState) (q p : String) :
    (mkdirParents fs q).lookup p = fs.lookup p := rfl

/-- Creating directories does not change file existence. -/
theorem mkdirParents_existsFile (fs : FSState) (q p : String) :
    (mkdirParents fs q).existsFile p = fs.existsFile p := rfl

/-- Writing a file does not change the directory set. -/
theorem write_dirs (fs : FSState) (p : String) (t : Tpl) :
    (fs.write p t).dirs = fs.dirs := rfl

/-- Existing directories survive `insertDir`. -/
theorem mem_insertDir_of_mem (ds : List (List String)) (d e : List String)
    (h : d ∈ ds) : d ∈ insertDir ds e := by
  unfold insertDir
  split
  · exact h
  · exact List.mem_append_left _ h

/-- The inserted directory is present after `insertDir`. -/
theorem self_mem_insertDir (ds : List (List String)) (d : List String) :
    d ∈ insertDir ds d := by
  unfold insertDir
  split
  · assumption
  · exact List.mem_append_right _ (by simp)

/-- Existing directories survive a fold of `insertDir`. -/
theorem mem_foldl_insertDir_of_mem (xs : List (List String)) :
    ∀ (ds : List (List String)) (d : List String),
      d ∈ ds → d ∈ xs.foldl insertDir ds := by
  induction xs with
  | nil => intro ds d h; exact h
  | cons x tl ih => intro ds d h; exact ih _ _ (mem_insertDir_of_mem _ _ _ h)

/-- Every folded-in directory is present after a fold of `insertDir`. -/
theorem mem_foldl_insertDir_self (xs : List (List String)) :
    ∀ (ds : List (List String)) (x : List String),
      x ∈ xs → x ∈ xs.foldl insertDir ds := by
  induction xs with
  | nil => intro ds x h; cases h
  | cons y tl ih =>
      intro ds x h
      rcases List.mem_cons.mp h with h1 | h2
      · subst h1
        exact mem_foldl_insertDir_of_mem tl _ _ (self_mem_insertDir ds x)
      · exact ih _ _ h2

/-- Existing directories survive `mkdirParents`. -/
theorem dirs_mkdirParents_mono (fs : FSState) (q : String) (d : List String)
    (h : d ∈ fs.dirs) : d ∈ (mkdirParents fs q).dirs :=
  mem_foldl_insertDir_of_mem _ _ _ h

/-- After `mkdirParents fs q` every ancestor directory of `q` exists. -/
theorem ancestors_mem_mkdirParents (fs : FSState) (q : String) (d : List String)
    (h : d ∈ ancestorsOf q) : d ∈ (mkdirParents fs q).dirs :=
  mem_foldl_insertDir_self _ _ _ h

/-- Unfolding equation of the materializer loop on the empty entry list. -/
theorem materializar_nil (fail : String → Bool) (fs : FSState) (cr om : Nat)
    (out : List Line) :
    materializar fail [] fs cr om out =
      Except.ok ⟨fs, cr, om, out ++ [Line.summary cr om]⟩ := rfl

/-- Unfolding equation of the materializer loop on one entry. -/
theorem materializar_cons (fail : String → Bool) (p : String) (t : Tpl)
    (rest : List (String × Tpl)) (fs : FSState) (cr om : Nat) (out : List Line) :
    materializar fail ((p, t) :: rest) fs cr om out =
      if (mkdirParents fs p).existsFile p then
        materializar fail rest (mkdirParents fs p) cr (om + 1) (out ++ [Line.skipped p])
      else if fail p then
        Except.error ⟨mkdirParents fs p, cr, om, out, p⟩
      else
        materializar fail rest ((mkdirParents fs p).write p t) (cr + 1) om
          (out ++ [Line.created p]) := rfl

/-- Rewriting equation for `createdPaths` on a created line. -/
theorem createdPaths_cons_created (p : String) (out : List Line) :
    createdPaths (Line.created p :: out) = p :: createdPaths out := rfl

/-- Rewriting equation for `createdPaths` on a skipped line. -/
theorem createdPaths_cons_skipped (p : String) (out : List Line) :
    createdPaths (Line.skipped p :: out) = createdPaths out := rfl

/-- Rewriting equation for `createdPaths` on the empty trace. -/
theorem createdPaths_nil : createdPaths [] = [] := rfl

/-- The output trace only grows during a run: final output of either
outcome extends the already emitted lines. -/
theorem mat_output_mono (fail : String → Bool) (l : List (String × Tpl)) :
    ∀ (fs : FSState) (cr om : Nat) (out : List Line),
      (∀ r, materializar fail l fs cr om out = Except.ok r →
        ∃ suf, r.output = out ++ suf) ∧
      (∀ f, materializar fail l fs cr om out = Except.error f →
        ∃ suf, f.output = out ++ suf) := by
  induction l with
  | nil =>
      intro fs cr om out
      refine ⟨fun r hr => ?_, fun f hf => ?_⟩
      · rw [materializar_nil] at hr
        cases hr
        exact ⟨[Line.summary cr om], rfl⟩
      · rw [materializar_nil] at hf
        simp at hf
  | cons hd tl ih =>
      intro fs cr om out
      obtain ⟨p, t⟩ := hd
      constructor
      · intro r hr
        rw [materializar_cons] at hr
        split at hr
        · obtain ⟨suf, hsuf⟩ :=
            (ih (mkdirParents fs p) cr (om + 1) (out ++ [Line.skipped p])).1 r hr
          exact ⟨[Line.skipped p] ++ suf, by rw [hsuf, List.append_assoc]⟩
        · split at hr
          · simp at hr
          · obtain ⟨suf, hsuf⟩ :=
              (ih ((mkdirParents fs p).write p t) (cr + 1) om
                (out ++ [Line.created p])).1 r hr
            exact ⟨[Line.created p] ++ suf, by rw [hsuf, List.append_assoc]⟩
      · intro f hf
        rw [materializar_cons] at hf
        split at hf
        · obtain ⟨suf, hsuf⟩ :=
            (ih (mkdirParents fs p) cr (om + 1) (out ++ [Line.skipped p])).2 f hf
          exact ⟨[Line.skipped p] ++ suf, by rw [hsuf, List.append_assoc]⟩
        · split at hf
          · cases hf
            exact ⟨[], (List.append_nil out).symm⟩
          · obtain ⟨suf, hsuf⟩ :=
              (ih ((mkdirParents fs p).write p t) (cr + 1) om
                (out ++ [Line.created p])).2 f hf
            exact ⟨[Line.created p] ++ suf, by rw [hsuf, List.append_assoc]⟩

/-- Frame property of the loop: a path that already resolves to `c0`
still resolves to `c0` at the end of either outcome, and a completed run
reported it as skipped when it is among the remaining entries. -/
theorem mat_preserves (fail : String → Bool) (l : List (String × Tpl)) :
    ∀ (fs : FSState) (cr om : Nat) (out : List Line) (p : String) (c0 : FileContent),
      fs.lookup p = some c0 →
      (∀ r, materializar fail l fs cr om out = Except.ok r →
        r.fs.lookup p = some c0 ∧ (p ∈ l.map Prod.fst → Line.skipped p ∈ r.output)) ∧
      (∀ f, materializar fail l fs cr om out = Except.error f →
        f.fs.lookup p = some c0) := by
  induction l with
  | nil =>
      intro fs cr om out p c0 hp
      refine ⟨fun r hr => ?_, fun f hf => ?_⟩
      · rw [materializar_nil] at hr
        cases hr
        exact ⟨hp, fun hmem => by simp at hmem⟩
      · rw [materializar_nil] at hf
        simp at hf
  | cons hd tl ih =>
      intro fs cr om out p c0 hp
      obtain ⟨q, t⟩ := hd
      have hp1 : (mkdirParents fs q).lookup p = some c0 := hp
      constructor
      · intro r hr
        rw [materializar_cons] at hr
        split at hr
        case isTrue h1 =>
          obtain ⟨hlook, hskip⟩ :=
            (ih (mkdirParents fs q) cr (om + 1) (out ++ [Line.skipped q]) p c0 hp1).1 r hr
          refine ⟨hlook, fun hmem => ?_⟩
          simp only [List.map_cons] at hmem
          rcases List.mem_cons.mp hmem with h | h
          · subst h
            obtain ⟨suf, hsuf⟩ :=
              (mat_output_mono fail tl (mkdirParents fs p) cr (om + 1)
                (out ++ [Line.skipped p])).1 r hr
            rw [hsuf]
            simp
          · exact hskip h
        case isFalse h1 =>
          split at hr
          · simp at hr
          · have hp2 : ((mkdirParents fs q).write q t).lookup p = some c0 := by
              rw [lookup_write, mkdirParents_lookup, hp]
            obtain ⟨hlook, hskip⟩ :=
              (ih ((mkdirParents fs q).write q t) (cr + 1) om
                (out ++ [Line.created q]) p c0 hp2).1 r hr
            refine ⟨hlook, fun hmem => ?_⟩
            simp only [List.map_cons] at hmem
            rcases List.mem_cons.mp hmem with h | h
            · subst h
              exfalso
              apply h1
              simp [FSState.existsFile, mkdirParents_lookup, hp]
            · exact hskip h
      · intro f hf
        rw [materializar_cons] at hf
        split at hf
        case isTrue h1 =>
          exact (ih (mkdirParents fs q) cr (om + 1) (out ++ [Line.skipped q]) p c0 hp1).2 f hf
        case isFalse h1 =>
          split at hf
          · cases hf
            exact hp
          · have hp2 : ((mkdirParents fs q).write q t).lookup p = some c0 := by
              rw [lookup_write, mkdirParents_lookup, hp]
            exact (ih ((mkdirParents fs q).write q t) (cr + 1) om
              (out ++ [Line.created q]) p c0 hp2).2 f hf

/-- Invariant of an aborted run: the surfaced failing path did fail and
was never written, the suffix of output emitted by this loop contains no
aggregate count line, and the file table grew by exactly the paths that
suffix reports as created. -/
theorem mat_error_invariant (fail : String → Bool) (l : List (String × Tpl)) :
    ∀ (fs : FSState) (cr om : Nat) (out : List Line) (f : MatFailure),
      materializar fail l fs cr om out = Except.error f →
      ∃ suf, f.output = out ++ suf ∧
        suf.filter isSummaryLine = [] ∧
        f.fs.files.map Prod.fst = fs.files.map Prod.fst ++ createdPaths suf ∧
        fail f.failedAt = true ∧
        f.fs.lookup f.failedAt = none := by
  induction l with
  | nil =>
      intro fs cr om out f hf
      rw [materializar_nil] at hf
      simp at hf
  | cons hd tl ih =>
      intro fs cr om out f hf
      obtain ⟨q, t⟩ := hd
      rw [materializar_cons] at hf
      split at hf
      case isTrue h1 =>
        obtain ⟨suf, h_out, h_filter, h_files, h_fail, h_none⟩ :=
          ih (mkdirParents fs q) cr (om + 1) (out ++ [Line.skipped q]) f hf
        refine ⟨Line.skipped q :: suf, ?_, ?_, ?_, h_fail, h_none⟩
        · rw [h_out, List.append_assoc]
          rfl
        · simpa [List.filter, isSummaryLine] using h_filter
        · rw [h_files, mkdirParents_files, createdPaths_cons_skipped]
      case isFalse h1 =>
        split at hf
        case isTrue h2 =>
          cases hf
          refine ⟨[], (List.append_nil out).symm, rfl, ?_, h2, ?_⟩
          · rw [mkdirParents_files, createdPaths_nil, List.append_nil]
          · rw [mkdirParents_lookup]
            cases hq : fs.lookup q
            · rfl
            · exfalso
              apply h1
              simp [FSState.existsFile, mkdirParents_lookup, hq]
        case isFalse h2 =>
          obtain ⟨suf, h_out, h_filter, h_files, h_fail, h_none⟩ :=
            ih ((mkdirParents fs q).write q t) (cr + 1) om (out ++ [Line.created q]) f hf
          refine ⟨Line.created q :: suf, ?_, ?_, ?_, h_fail, h_none⟩
          · rw [h_out, List.append_assoc]
            rfl
          · simpa [List.filter, isSummaryLine] using h_filter
          · rw [h_files, createdPaths_cons_created]
            simp [FSState.write, mkdirParents_files]

/-- A completed run emitted the aggregate count line with its final
counters. -/
theorem mat_ok_summary (fail : String → Bool) (l : List (String × Tpl)) :
    ∀ (fs : FSState) (cr om : Nat) (out : List Line) (r : MatResult),
      materializar fail l fs cr om out = Except.ok r →
      Line.summary r.creados r.omitidos ∈ r.output := by
  induction l with
  | nil =>
      intro fs cr om out r hr
      rw [materializar_nil] at hr
      cases hr
      simp
  | cons hd tl ih =>
      intro fs cr om out r hr
      obtain ⟨q, t⟩ := hd
      rw [materializar_cons] at hr
      split at hr
      · exact ih _ _ _ _ r hr
      · split at hr
        · simp at hr
        · exact ih _ _ _ _ r hr

/-- When the OS refuses no write the loop completes, keeps every existing
file existing, and ends with every processed entry existing on disk. -/
theorem mat_noFail_ok (l : List (String × Tpl)) :
    ∀ (fs : FSState) (cr om : Nat) (out : List Line),
      ∃ r, materializar noFail l fs cr om out = Except.ok r ∧
        (∀ p, fs.existsFile p = true → r.fs.existsFile p = true) ∧
        (∀ pc ∈ l, r.fs.existsFile pc.1 = true) := by
  induction l with
  | nil =>
      intro fs cr om out
      refine ⟨⟨fs, cr, om, out ++ [Line.summary cr om]⟩, rfl, fun p h => h, ?_⟩
      intro pc hpc
      simp at hpc
  | cons hd tl ih =>
      intro fs cr om out
      obtain ⟨q, t⟩ := hd
      by_cases h1 : (mkdirParents fs q).existsFile q = true
      · obtain ⟨r, hr, hmono, hall⟩ :=
          ih (mkdirParents fs q) cr (om + 1) (out ++ [Line.skipped q])
        refine ⟨r, ?_, fun p hp => hmono p hp, ?_⟩
        · rw [materializar_cons, if_pos h1]
          exact hr
        · intro pc hpc
          rcases List.mem_cons.mp hpc with h | h
          · subst h
            exact hmono q h1
          · exact hall pc h
      · obtain ⟨r, hr, hmono, hall⟩ :=
          ih ((mkdirParents fs q).write q t) (cr + 1) om (out ++ [Line.created q])
        refine ⟨r, ?_, ?_, ?_⟩
        · rw [materializar_cons, if_neg h1]
          exact hr
        · intro p hp
          apply hmono
          have hp' := hp
          unfold FSState.existsFile at hp' ⊢
          rw [lookup_write, mkdirParents_lookup]
          cases hc : fs.lookup p
          · rw [hc] at hp'
            simp at hp'
          · simp
        · intro pc hpc
          rcases List.mem_cons.mp hpc with h | h
          · subst h
            apply hmono
            unfold FSState.existsFile
            rw [lookup_write]
            cases hc : (mkdirParents fs q).lookup q <;> simp
          · exact hall pc h

/-- A run over entries that all already exist completes, skips them all,
creates nothing and leaves the file table untouched. -/
theorem mat_all_exist (fail : String → Bool) (l : List (String × Tpl)) :
    ∀ (fs : FSState) (cr om : Nat) (out : List Line),
      (∀ pc ∈ l, fs.existsFile pc.1 = true) →
      ∃ r, materializar fail l fs cr om out = Except.ok r ∧
        r.creados = cr ∧ r.omitidos = om + l.length ∧ r.fs.files = fs.files := by
  induction l with
  | nil =>
      intro fs cr om out _
      exact ⟨⟨fs, cr, om, out ++ [Line.summary cr om]⟩, rfl, rfl, by simp, rfl⟩
  | cons hd tl ih =>
      intro fs cr om out hall
      obtain ⟨q, t⟩ := hd
      have h1 : (mkdirParents fs q).existsFile q = true :=
        hall (q, t) (List.mem_cons_self _ _)
      obtain ⟨r, hr, hcr, hom, hfiles⟩ :=
        ih (mkdirParents fs q) cr (om + 1) (out ++ [Line.skipped q])
          (fun pc hpc => hall pc (List.mem_cons_of_mem _ hpc))
      refine ⟨r, ?_, hcr, ?_, ?_⟩
      · rw [materializar_cons, if_pos h1]
        exact hr
      · rw [hom]
        simp
        omega
      · rw [hfiles, mkdirParents_files]

/-- Directory bookkeeping of the loop: directories only accumulate, every
processed entry has all its ancestor directories created, and on an
aborted run the ancestors of the failing file were created before the
failing write was attempted. -/
theorem mat_dirs_spec (fail : String → Bool) (l : List (String × Tpl)) :
    ∀ (fs : FSState) (cr om : Nat) (out : List Line),
      (∀ r, materializar fail l fs cr om out = Except.ok r →
        (∀ d ∈ fs.dirs, d ∈ r.fs.dirs) ∧
        (∀ pc ∈ l, ∀ d ∈ ancestorsOf pc.1, d ∈ r.fs.dirs)) ∧
      (∀ f, materializar fail l fs cr om out = Except.error f →
        (∀ d ∈ fs.dirs, d ∈ f.fs.dirs) ∧
        (∀ d ∈ ancestorsOf f.failedAt, d ∈ f.fs.dirs)) := by
  induction l with
  | nil =>
      intro fs cr om out
      refine ⟨fun r hr => ?_, fun f hf => ?_⟩
      · rw [materializar_nil] at hr
        cases hr
        exact ⟨fun d h => h, fun pc hpc => by simp at hpc⟩
      · rw [materializar_nil] at hf
        simp at hf
  | cons hd tl ih =>
      intro fs cr om out
      obtain ⟨q, t⟩ := hd
      constructor
      · intro r hr
        rw [materializar_cons] at hr
        split at hr
        case isTrue h1 =>
          obtain ⟨hmono, hall⟩ :=
            (ih (mkdirParents fs q) cr (om + 1) (out ++ [Line.skipped q])).1 r hr
          refine ⟨fun d hd2 => hmono d (dirs_mkdirParents_mono fs q d hd2), ?_⟩
          intro pc hpc d hd2
          rcases List.mem_cons.mp hpc with h | h
          · subst h
            exact hmono d (ancestors_mem_mkdirParents fs q d hd2)
          · exact hall pc h d hd2
        case isFalse h1 =>
          split at hr
          · simp at hr
          · obtain ⟨hmono, hall⟩ :=
              (ih ((mkdirParents fs q).write q t) (cr + 1) om
                (out ++ [Line.created q])).1 r hr
            refine ⟨fun d hd2 => hmono d (dirs_mkdirParents_mono fs q d hd2), ?_⟩
            intro pc hpc d hd2
            rcases List.mem_cons.mp hpc with h | h
            · subst h
              exact hmono d (ancestors_mem_mkdirParents fs q d hd2)
            · exact hall pc h d hd2
      · intro f hf
        rw [materializar_cons] at hf
        split at hf
        case isTrue h1 =>
          obtain ⟨hmono, hanc⟩ :=
            (ih (mkdirParents fs q) cr (om + 1) (out ++ [Line.skipped q])).2 f hf
          exact ⟨fun d hd2 => hmono d (dirs_mkdirParents_mono fs q d hd2), hanc⟩
        case isFalse h1 =>
          split at hf
          · cases hf
            exact ⟨fun d hd2 => dirs_mkdirParents_mono fs q d hd2,
              fun d hd2 => ancestors_mem_mkdirParents fs q d hd2⟩
          · obtain ⟨hmono, hanc⟩ :=
              (ih ((mkdirParents fs q).write q t) (cr + 1) om
                (out ++ [Line.created q])).2 f hf
            exact ⟨fun d hd2 => hmono d (dirs_mkdirParents_mono fs q d hd2), hanc⟩

/-- Claim C1, counterexample: the claimed monotonic inclusion across all
level pairs fails already at the pair k1 = 1, k2 = 2: the path
`proyecto.py` is in the level 1 template set but not in the level 2 set
(level 2 consists of `backend.py` and `frontend.py` only). -/
theorem c1_counterexample :
    ("proyecto.py") ∈ (get_templates 1).map Prod.fst ∧
    ("proyecto.py") ∉ (get_templates 2).map Prod.fst := by decide

/-- Claim C1, amended: monotonic inclusion of the template path sets holds
from level 3 upward — for levels k1 < k2 with 3 ≤ k1 and k2 ≤ 5, every
relative path of the level k1 set is in the level k2 set.  Between the
pairs involving levels 1 and 2 the inclusion fails, as the counterexample
shows. -/
theorem c1_monotonia_desde_nivel3 : ∀ (k1 k2 : Int), 3 ≤ k1 → k1 < k2 → k2 ≤ 5 →
    ∀ p ∈ (get_templates k1).map Prod.fst, p ∈ (get_templates k2).map Prod.fst := by
  intro k1 k2 h3 hlt h5
  have hk1 : k1 ≤ 4 := by omega
  interval_cases k1 <;> interval_cases k2 <;> first | omega | decide

/-- Claim C1, witness: the amended inclusion instantiated at the concrete
pair of levels 3 and 5. -/
theorem c1_witness : (3:Int) ≤ 3 ∧ (3:Int) < 5 ∧ (5:Int) ≤ 5 ∧
    (∀ p ∈ (get_templates 3).map Prod.fst, p ∈ (get_templates 5).map Prod.fst) :=
  ⟨by decide, by decide, by decide,
   c1_monotonia_desde_nivel3 3 5 (by decide) (by decide) (by decide)⟩

/-- Claim C2, counterexample: a level 1 run into the empty destination
whose only write is refused aborts with the propagating error after
emitting no output line at all — in particular no final aggregate count is
reported for the failed run, refuting the claim that the count is still
reported on partial failure. -/
theorem c2_counterexample :
    generar_estructura failProyecto 1 emptyFS = Except.error c2fallo ∧
    c2fallo.output.filter isSummaryLine = [] ∧ c2fallo.output = [] :=
  ⟨rfl, rfl, rfl⟩

/-- Claim C2, amended: for every level in 1..5 and every destination, when
materialization fails partway it aborts the remaining writes (the file
table grew by exactly the paths already reported as created, and the
failing path itself was never written) and surfaces the underlying error
naming a genuinely refused path — but the final aggregate count line is
NOT emitted on failure; it is emitted exactly on the runs that processed
every entry. -/
theorem c2_reporte_de_fallo : ∀ (fail : String → Bool) (nivel : Int) (fs0 : FSState),
    1 ≤ nivel → nivel ≤ 5 → FalloReportado fail nivel fs0 := by
  intro fail nivel fs0 _ _
  unfold FalloReportado
  cases h : generar_estructura fail nivel fs0 with
  | error f =>
      obtain ⟨suf, h_out, h_filter, h_files, h_fail, h_none⟩ :=
        mat_error_invariant fail (get_templates nivel) fs0 0 0 [] f h
      have hsuf : f.output = suf := by simpa using h_out
      refine ⟨h_fail, h_none, ?_, ?_⟩
      · rw [hsuf]
        exact h_files
      · rw [hsuf]
        exact h_filter
  | ok r => exact mat_ok_summary fail (get_templates nivel) fs0 0 0 [] r h

/-- Claim C2, witness: the amended failure-reporting property at the
concrete failing level 1 run. -/
theorem c2_witness : (1:Int) ≤ 1 ∧ (1:Int) ≤ 5 ∧ FalloReportado failProyecto 1 emptyFS :=
  ⟨by decide, by decide, c2_reporte_de_fallo failProyecto 1 emptyFS (by decide) (by decide)⟩

/-- Claim C3: for every level in 1..5 and every relative path of that
level, a file already present at that path before materialization keeps
its content byte-for-byte through either outcome of the run, and a
completed run reports it as skipped; it is never overwritten. -/
theorem c3_preserva_existente : ∀ (fail : String → Bool) (nivel : Int) (fs0 : FSState)
    (p : String) (c0 : FileContent),
    1 ≤ nivel → nivel ≤ 5 →
    p ∈ (get_templates nivel).map Prod.fst →
    fs0.lookup p = some c0 →
    ArchivoPreservado fail nivel fs0 p c0 := by
  intro fail nivel fs0 p c0 _ _ hmem hp
  unfold ArchivoPreservado
  cases h : generar_estructura fail nivel fs0 with
  | ok r =>
      obtain ⟨hlook, hskip⟩ :=
        (mat_preserves fail (get_templates nivel) fs0 0 0 [] p c0 hp).1 r h
      exact ⟨hlook, hskip hmem⟩
  | error f =>
      exact (mat_preserves fail (get_templates nivel) fs0 0 0 [] p c0 hp).2 f h

/-- Claim C3, witness: a user-edited `proyecto.py` survives a level 1
re-run untouched and is reported as skipped. -/
theorem c3_witness :
    (1:Int) ≤ 1 ∧ (1:Int) ≤ 5 ∧
    ("proyecto.py") ∈ (get_templates 1).map Prod.fst ∧
    fsEditado.lookup ("proyecto.py") = some (FileContent.user ("edited by the user")) ∧
    ArchivoPreservado noFail 1 fsEditado ("proyecto.py")
      (FileContent.user ("edited by the user")) :=
  ⟨by decide, by decide, by decide, by rfl,
   c3_preserva_existente noFail 1 fsEditado ("proyecto.py")
     (FileContent.user ("edited by the user")) (by decide) (by decide) (by decide) (by rfl)⟩

/-- Claim C4: for every level in 1..5, materializing twice in succession
into the initially empty destination (with no write refused) gives on the
second run zero created, a skipped count equal to the number of template
entries of the level, and an unchanged file table. -/
theorem c4_idempotente : ∀ (nivel : Int) (r1 r2 : MatResult),
    1 ≤ nivel → nivel ≤ 5 →
    generar_estructura noFail nivel emptyFS = Except.ok r1 →
    generar_estructura noFail nivel r1.fs = Except.ok r2 →
    r2.creados = 0 ∧ r2.omitidos = (get_templates nivel).length ∧
    r2.fs.files = r1.fs.files := by
  intro nivel r1 r2 _ _ h1 h2
  obtain ⟨r1b, hr1b, hmono, hall⟩ := mat_noFail_ok (get_templates nivel) emptyFS 0 0 []
  have heq1 : Except.ok (ε := MatFailure) r1b = Except.ok r1 := hr1b.symm.trans h1
  injection heq1 with he1
  subst he1
  obtain ⟨r2b, hr2b, hcr, hom, hfiles⟩ :=
    mat_all_exist noFail (get_templates nivel) r1b.fs 0 0 [] hall
  have heq2 : Except.ok (ε := MatFailure) r2b = Except.ok r2 := hr2b.symm.trans h2
  injection heq2 with he2
  subst he2
  refine ⟨hcr, ?_, hfiles⟩
  rw [hom]
  exact Nat.zero_add _

/-- Claim C4, witness: the double level 1 run into the empty destination,
with both concrete results computed: second run creates 0, skips 1, and
leaves the single file as the first run wrote it. -/
theorem c4_witness :
    (1:Int) ≤ 1 ∧ (1:Int) ≤ 5 ∧
    generar_estructura noFail 1 emptyFS = Except.ok c4r1 ∧
    generar_estructura noFail 1 c4r1.fs = Except.ok c4r2 ∧
    (c4r2.creados = 0 ∧ c4r2.omitidos = (get_templates 1).length ∧
     c4r2.fs.files = c4r1.fs.files) :=
  ⟨by decide, by decide, by rfl, by rfl,
   c4_idempotente 1 c4r1 c4r2 (by decide) (by decide) (by rfl) (by rfl)⟩

/-- Claim C5: the level 5 template path sequence is exactly the level 4
sequence followed by the Presentation tree, the presentation test module
and the style guide — no other additions and no removals, order
included. -/
theorem c5_nivel5_extiende_nivel4 :
    (get_templates 5).map Prod.fst = (get_templates 4).map Prod.fst ++
      [("Presentation/__init__.py"), ("Presentation/viewmodels/__init__.py"),
       ("Presentation/viewmodels/viewmodel_base.py"),
       ("Presentation/viewmodels/entidad_viewmodel.py"),
       ("Presentation/models/__init__.py"), ("Presentation/models/ui_entidad.py"),
       ("Presentation/models/validators.py"), ("Presentation/commands/__init__.py"),
       ("Presentation/commands/comando_base.py"),
       ("Presentation/commands/comandos_entidad.py"),
       ("Tests/test_presentation/__init__.py"),
       ("Tests/test_presentation/test_entidad_viewmodel.py"),
       ("Docs/guia_estilo.md")] := by decide

/-- Claim C6: the level 3 template set contains the four named layer
files and contains no path under `Tests/` and none under
`Presentation/`. -/
theorem c6_contenido_nivel3 :
    ("Domain/entidades/entidad.py") ∈ (get_templates 3).map Prod.fst ∧
    ("Application/servicios/servicio_entidad.py") ∈ (get_templates 3).map Prod.fst ∧
    ("Infrastructure/persistencia/repositorios/repositorio_entidad_sql.py") ∈
      (get_templates 3).map Prod.fst ∧
    ("User_Interface/vistas/vista_principal.py") ∈ (get_templates 3).map Prod.fst ∧
    ∀ p ∈ (get_templates 3).map Prod.fst,
      hasPathPrefixStr ("Tests/") p = false ∧
      hasPathPrefixStr ("Presentation/") p = false := by decide

/-- Claim C7: the registry is embedded as a pure total function — the
source builds its dict from string literals only, performing no
filesystem access — so an invocation seen from any world state returns
the same ordered path sequence and the same content sequence as an
invocation from any other world state, leaves the world untouched, and
always returns. -/
theorem c7_registro_determinista : ∀ (nivel : Int) (fs1 fs2 : FSState),
    (resolve_templates fs1 nivel).1.map Prod.fst =
      (resolve_templates fs2 nivel).1.map Prod.fst ∧
    (resolve_templates fs1 nivel).1.map Prod.snd =
      (resolve_templates fs2 nivel).1.map Prod.snd ∧
    (resolve_templates fs1 nivel).2 = fs1 :=
  fun _ _ _ => ⟨rfl, rfl, rfl⟩

/-- Claim C8: for every level in 1..5 and any starting state — the
destination root itself may not exist — a completed materialization has
created every ancestor directory of every template entry of the level,
and even an aborted one had created the ancestors of the failing file
before attempting its write. -/
theorem c8_crea_directorios : ∀ (fail : String → Bool) (nivel : Int) (fs0 : FSState),
    1 ≤ nivel → nivel ≤ 5 → AncestrosCreados fail nivel fs0 := by
  intro fail nivel fs0 _ _
  unfold AncestrosCreados
  cases h : generar_estructura fail nivel fs0 with
  | ok r =>
      obtain ⟨_, hall⟩ := (mat_dirs_spec fail (get_templates nivel) fs0 0 0 []).1 r h
      exact hall
  | error f =>
      obtain ⟨_, hanc⟩ := (mat_dirs_spec fail (get_templates nivel) fs0 0 0 []).2 f h
      exact hanc

/-- Claim C8, witness: a level 3 run from the empty state, in which not
even the destination root existed beforehand. -/
theorem c8_witness : (1:Int) ≤ 3 ∧ (3:Int) ≤ 5 ∧ AncestrosCreados noFail 3 emptyFS :=
  ⟨by decide, by decide, c8_crea_directorios noFail 3 emptyFS (by decide) (by decide)⟩

/-- Claim C9: the `--forzar` flag is parsed but never consulted, so a run
with it set is identical — same outcome, same writes, same counts — to a
run without it, and in particular an existing file keeps its content even
under `--forzar`. -/
theorem c9_forzar_sin_efecto : ∀ (fail : String → Bool) (nivel : Int)
    (forzar1 forzar2 : Bool) (fs0 : FSState) (p : String) (c0 : FileContent),
    fs0.lookup p = some c0 →
    main_con_args fail nivel forzar1 fs0 = main_con_args fail nivel forzar2 fs0 ∧
    ExistentePreservado fail nivel fs0 p c0 := by
  intro fail nivel forzar1 forzar2 fs0 p c0 hp
  refine ⟨rfl, ?_⟩
  unfold ExistentePreservado
  have hp1 : ({ fs0 with dirs := insertDir fs0.dirs [] } : FSState).lookup p = some c0 := hp
  cases h : main_con_args fail nivel true fs0 with
  | ok r =>
      exact ((mat_preserves fail (get_templates nivel)
        { fs0 with dirs := insertDir fs0.dirs [] } 0 0 [] p c0 hp1).1 r h).1
  | error f =>
      exact (mat_preserves fail (get_templates nivel)
        { fs0 with dirs := insertDir fs0.dirs [] } 0 0 [] p c0 hp1).2 f h

/-- Claim C9, witness: with and without `--forzar`, the level 1 run over
a destination holding a user-edited `proyecto.py` coincide and preserve
the edited file. -/
theorem c9_witness :
    fsEditado.lookup ("proyecto.py") = some (FileContent.user ("edited by the user")) ∧
    (main_con_args noFail 1 true fsEditado = main_con_args noFail 1 false fsEditado ∧
     ExistentePreservado noFail 1 fsEditado ("proyecto.py")
       (FileContent.user ("edited by the user"))) :=
  ⟨by rfl,
   c9_forzar_sin_efecto noFail 1 true false fsEditado ("proyecto.py")
     (FileContent.user ("edited by the user")) (by rfl)⟩

/-- Claim C10: outside the contract range the registry still never
raises: every integer level at least 6 resolves to exactly the level 5
template set, and every level at most 0 resolves to the empty mapping. -/
theorem c10_fuera_de_rango : ∀ (n : Int),
    (6 ≤ n → get_templates n = get_templates 5) ∧
    (n ≤ 0 → get_templates n = []) := by
  intro n
  constructor
  · intro h6
    have h1 : ¬(n = 1) := by omega
    have h2 : ¬(n = 2) := by omega
    have h3 : n ≥ 3 := by omega
    have h4 : n ≥ 4 := by omega
    have h5 : n ≥ 5 := by omega
    rw [get_templates, if_neg h1, if_neg h2, if_pos h3, if_pos h4, if_pos h4, if_pos h5]
    rfl
  · intro h0
    have h1 : ¬(n = 1) := by omega
    have h2 : ¬(n = 2) := by omega
    have h3 : ¬(n ≥ 3) := by omega
    rw [get_templates, if_neg h1, if_neg h2, if_neg h3]

/-- Claim C10, witness: level 7 resolves to the level 5 set and level -1
resolves to the empty mapping. -/
theorem c10_witness :
    ((6:Int) ≤ 7 ∧ get_templates 7 = get_templates 5) ∧
    ((-1:Int) ≤ 0 ∧ get_templates (-1) = []) :=
  ⟨⟨by decide, (c10_fuera_de_rango 7).1 (by decide)⟩,
   ⟨by decide, (c10_fuera_de_rango (-1)).2 (by decide)⟩⟩

end DevPattern
